import Mathlib

/-!
Shallow embedding of the trigger (wake-word) audio component in
`src/src/models/trigger.py`, and proofs about the claims of its spec.

The component consumes live timestamped audio from an upstream microphone,
runs speech segments through a recognizer, checks for a configured trigger
phrase, and splices historical replay bursts into a consumer-facing stream.

Modelling notes:
- Python floats for durations are embedded as exact arithmetic (Nat / ℚ).
  The short-segment test `len / (rate * width) < 0.5` is embedded as the
  equivalent exact inequality `2 * len < rate * width`.
- Mutable attributes of the `Trigger` instance relevant to the claims are
  collected in `TriggerState` and passed explicitly.
- The recognition capability (Vosk `KaldiRecognizer.FinalResult`) is an
  external call; it is embedded as a parameter of type `Except String String`
  (the recognized text, or a raised exception).
-/

namespace FilterMic

/-- An audio chunk from the upstream source, per the data model:
payload bytes, start timestamp and end timestamp in nanoseconds
(`chunk.audio.end_timestamp_nanoseconds` in the code). -/
structure AudioChunk where
  payload : List Nat
  startTimestampNs : Nat
  endTimestampNs : Nat
  deriving DecidableEq, Repr

/-- The mutable trigger-correlation state of the `Trigger` instance
(initialized in `Trigger.new`, lines 80-83):
`last_chunk_timestamp_ns`, `trigger_detected`, `trigger_timestamp_ns`,
`trigger_segment_duration_ns`. -/
structure TriggerState where
  lastChunkTimestampNs : Nat
  triggerDetected : Bool
  triggerTimestampNs : Nat
  triggerSegmentDurationNs : Nat
  deriving DecidableEq, Repr

/-- The initial trigger state set up by `Trigger.new` (lines 80-83). -/
def initTriggerState : TriggerState :=
  { lastChunkTimestampNs := 0
    triggerDetected := false
    triggerTimestampNs := 0
    triggerSegmentDurationNs := 0 }

/-- Python's `str.lower()`, embedded as character-wise case folding
(kernel-computable, unlike `String.toLower`). -/
def pyLower (s : String) : String := String.mk (s.data.map Char.toLower)

/-- Python's string truthiness test (`if s:`): nonemptiness. -/
def pyIsEmpty (s : String) : Bool := s.data.isEmpty

/-- `Trigger.new` line 51: the configured trigger phrase is case-folded
(`.lower()`) when stored on the instance. -/
def configTriggerWord (raw : String) : String := pyLower raw

/-- `on_trigger_detected` (lines 209-224): records the segment duration,
sets the trigger timestamp from `last_chunk_timestamp_ns` (the most recent
audio chunk timestamp, not system time), and raises the flag. -/
def on_trigger_detected (s : TriggerState) (segmentDurationNs : Nat) : TriggerState :=
  { s with
    triggerSegmentDurationNs := segmentDurationNs
    triggerTimestampNs := s.lastChunkTimestampNs
    triggerDetected := true }

/-- A finalized speech segment as handed to `listen_callback`: the byte
length of `frame_data`, the sample rate and the sample width. -/
structure AudioData where
  frameDataLen : Nat
  sampleRate : Nat
  sampleWidth : Nat
  deriving DecidableEq, Repr

/-- Line 177: `segment_duration_seconds < 0.5` with
`segment_duration_seconds = len(frame_data) / (sample_rate * sample_width)`,
embedded exactly: `len / (rate * width) < 1/2  ↔  2 * len < rate * width`. -/
def isShortSegment (a : AudioData) : Bool :=
  2 * a.frameDataLen < a.sampleRate * a.sampleWidth

/-- Lines 201-202: `int(segment_duration_seconds * 1_000_000_000)`,
embedded as exact integer arithmetic (floor of `len * 10^9 / (rate * width)`). -/
def segmentDurationNs (a : AudioData) : Nat :=
  a.frameDataLen * 1000000000 / (a.sampleRate * a.sampleWidth)

/-- Python's substring test `needle in haystack`. -/
def strContains (needle haystack : String) : Bool :=
  decide (needle.data <:+: haystack.data)

/-- Outcome of one `listen_callback` invocation:
- `skippedShort`: returned at line 179 before the recognizer is created;
- `errorPropagated`: an exception escaped the handler (the handler body has
  no try/except around the recognition calls);
- `noTrigger`: recognition ran, no trigger fired;
- `triggered`: the trigger phrase was found, `on_trigger_detected` ran. -/
inductive SegmentOutcome where
  | skippedShort
  | errorPropagated (msg : String)
  | noTrigger
  | triggered (recognizedText : String) (segmentDurationNs : Nat)
  deriving DecidableEq, Repr

/-- `listen_callback` (lines 167-207). `triggerWord` is the instance's
stored (already case-folded) phrase; `recog` is the outcome of the
recognition calls (`KaldiRecognizer` / `AcceptWaveform` / `FinalResult`,
none of which is wrapped in a try/except in the handler). The recognized
text is case-folded (line 191); line 193 tests it for truthiness (nonempty);
line 197 requires a truthy (nonempty) trigger word contained in the text. -/
def listen_callback (s : TriggerState) (triggerWord : String) (a : AudioData)
    (recog : Except String String) : SegmentOutcome × TriggerState :=
  if isShortSegment a then
    (.skippedShort, s)
  else
    match recog with
    | .error e => (.errorPropagated e, s)
    | .ok rawText =>
      let recognizedText := pyLower rawText
      if pyIsEmpty recognizedText then
        (.noTrigger, s)
      else if (!pyIsEmpty triggerWord) && strContains triggerWord recognizedText then
        (.triggered recognizedText (segmentDurationNs a),
         on_trigger_detected s (segmentDurationNs a))
      else
        (.noTrigger, s)

/-- Whether an outcome fired the trigger. -/
def SegmentOutcome.fired : SegmentOutcome → Bool
  | .triggered _ _ => true
  | _ => false

/-- Lines 252-254 of `audio_generator`: the high-water-mark update.
`last_chunk_timestamp_ns` is overwritten with the chunk's end timestamp
only when that timestamp is strictly positive. -/
def updateHwm (hwm : Nat) (chunk : AudioChunk) : Nat :=
  if chunk.endTimestampNs > 0 then chunk.endTimestampNs else hwm

/-- A historical `get_audio` re-query issued against the upstream microphone
(lines 266-272): `previous_timestamp_ns` (an unbounded Python int, possibly
negative) and `duration_seconds` (a Python float, embedded as ℚ). -/
structure HistoricalQuery where
  previousTimestampNs : Int
  durationSeconds : ℚ
  deriving DecidableEq, Repr

/-- Lines 266-272: the query computed from the trigger state:
`historical_start = trigger_timestamp_ns - segment_duration_ns` and
`buffer_duration_seconds = segment_duration_ns / 1_000_000_000`. -/
def historicalQueryOf (s : TriggerState) : HistoricalQuery :=
  { previousTimestampNs :=
      (s.triggerTimestampNs : Int) - (s.triggerSegmentDurationNs : Int)
    durationSeconds := (s.triggerSegmentDurationNs : ℚ) / 1000000000 }

/-- The observable effect of one iteration of the `async for` loop of
`audio_generator` (lines 251-279). -/
structure StepResult where
  outputs : List AudioChunk
  queries : List HistoricalQuery
  state : TriggerState
  firstChunk : Bool
  deriving Repr

/-- One iteration of the `audio_generator` loop (lines 251-279) on live
chunk `chunk`:
1. update the high-water mark from the chunk's end timestamp (252-254);
2. yield the chunk iff it is the first one (256-259);
3. the concurrent recognition callback may have fired
   `on_trigger_detected` (modelled by `trigEv`, carrying the segment
   duration it reported);
4. if the trigger flag is set, issue the historical query, yield the whole
   returned bounded stream (`fetch` embeds the upstream microphone's
   bounded `get_audio`), then clear the flag (262-279). -/
def genStep (fetch : HistoricalQuery → List AudioChunk)
    (s : TriggerState) (firstChunk : Bool)
    (chunk : AudioChunk) (trigEv : Option Nat) : StepResult :=
  let s1 : TriggerState :=
    { s with lastChunkTimestampNs := updateHwm s.lastChunkTimestampNs chunk }
  let live : List AudioChunk := if firstChunk then [chunk] else []
  let s2 : TriggerState :=
    match trigEv with
    | some d => on_trigger_detected s1 d
    | none => s1
  if s2.triggerDetected then
    let q := historicalQueryOf s2
    { outputs := live ++ fetch q
      queries := [q]
      state := { s2 with triggerDetected := false }
      firstChunk := false }
  else
    { outputs := live
      queries := []
      state := s2
      firstChunk := false }

/-- The whole `audio_generator` loop over a monitored live stream, given as
the list of live chunks each paired with an optional concurrent trigger
detection arriving during that iteration. Returns the chunks yielded to the
downstream consumer, the historical queries issued, and the final state. -/
def audioGeneratorRun (fetch : HistoricalQuery → List AudioChunk)
    (s : TriggerState) (firstChunk : Bool)
    (events : List (AudioChunk × Option Nat)) :
    List AudioChunk × List HistoricalQuery × TriggerState :=
  match events with
  | [] => ([], [], s)
  | (c, tr) :: rest =>
    let r := genStep fetch s firstChunk c tr
    let rec_ := audioGeneratorRun fetch r.state r.firstChunk rest
    (r.outputs ++ rec_.1, r.queries ++ rec_.2.1, rec_.2.2)

/-- The audio properties advertised by an `AudioIn` component. -/
structure AudioProperties where
  sampleRate : Nat
  channelCount : Nat
  deriving DecidableEq, Repr

/-- `get_properties` (lines 351-352): the body is a single debug log
statement with no return, so every call falls off the end of the function
and returns Python's `None` — it neither builds the default properties nor
delegates to the upstream microphone. -/
def get_properties : Option AudioProperties := none

/-- An upstream fetch returning no chunks (used for concrete runs). -/
def emptyFetch : HistoricalQuery → List AudioChunk := fun _ => []

/-- Concrete chunks for concrete runs. -/
def chunkA : AudioChunk := { payload := [1, 2], startTimestampNs := 0, endTimestampNs := 100 }

def chunkB : AudioChunk := { payload := [3, 4], startTimestampNs := 100, endTimestampNs := 200 }

/-- Helper: a step with no concurrent trigger detection and a clear flag
forwards the chunk only when it is the first one, issues no query, and
leaves the flag clear. -/
lemma genStep_no_trigger (fetch : HistoricalQuery → List AudioChunk)
    (s : TriggerState) (first : Bool) (c : AudioChunk)
    (hs : s.triggerDetected = false) :
    genStep fetch s first c none =
      { outputs := if first then [c] else []
        queries := []
        state := { s with lastChunkTimestampNs := updateHwm s.lastChunkTimestampNs c }
        firstChunk := false } := by
  simp [genStep, hs]

/-- Helper: if no trigger ever arrives and the flag starts clear, the run
forwards exactly the first live chunk (when the first-chunk flag is set)
and nothing else. -/
lemma audioGeneratorRun_no_trigger (fetch : HistoricalQuery → List AudioChunk)
    (events : List (AudioChunk × Option Nat)) :
    ∀ (s : TriggerState) (first : Bool),
      s.triggerDetected = false → (∀ e ∈ events, e.2 = none) →
      (audioGeneratorRun fetch s first events).1 =
        if first then (events.map Prod.fst).take 1 else [] := by
  induction events with
  | nil => intro s first _ _; cases first <;> simp [audioGeneratorRun]
  | cons e rest ih =>
    intro s first hs hev
    obtain ⟨c, tr⟩ := e
    have htr : tr = none := hev (c, tr) (by simp)
    subst htr
    have hstep := genStep_no_trigger fetch s first c hs
    have hrest := ih { s with lastChunkTimestampNs := updateHwm s.lastChunkTimestampNs c }
      false hs (fun e he => hev e (by simp [he]))
    cases first <;>
      simp_all [audioGeneratorRun, hstep]

/-- Helper: every step's yielded output is its (possible) first live chunk
followed by the concatenation of the bursts fetched for its queries. -/
lemma genStep_outputs_structure (fetch : HistoricalQuery → List AudioChunk)
    (s : TriggerState) (first : Bool) (c : AudioChunk) (tr : Option Nat) :
    (genStep fetch s first c tr).outputs =
      (if first then [c] else []) ++ ((genStep fetch s first c tr).queries.map fetch).flatten := by
  unfold genStep
  cases tr <;> dsimp only <;> split <;> simp

/-- Helper: the run's whole output is the first live chunk (when the
first-chunk flag is set and a chunk exists) followed by the fetched bursts,
contiguous and in the order their queries were issued. -/
lemma audioGeneratorRun_outputs_structure (fetch : HistoricalQuery → List AudioChunk)
    (events : List (AudioChunk × Option Nat)) :
    ∀ (s : TriggerState) (first : Bool),
      (audioGeneratorRun fetch s first events).1 =
        (if first then (events.map Prod.fst).take 1 else []) ++
          (((audioGeneratorRun fetch s first events).2.1).map fetch).flatten := by
  induction events with
  | nil => intro s first; cases first <;> simp [audioGeneratorRun]
  | cons e rest ih =>
    intro s first
    obtain ⟨c, tr⟩ := e
    have hstep := genStep_outputs_structure fetch s first c tr
    have hrest := ih (genStep fetch s first c tr).state (genStep fetch s first c tr).firstChunk
    have hfc : (genStep fetch s first c tr).firstChunk = false := by
      unfold genStep; cases tr <;> dsimp only <;> split <;> rfl
    rw [hfc] at hrest
    cases first <;>
      simp [audioGeneratorRun, hstep, hrest, hfc, List.flatten_append]

/-- C10: a finalized speech segment whose duration
`len(frame_data) / (sample_rate * sample_width)` is below 0.5 seconds
(exactly: `2 * len < rate * width`) makes `listen_callback` return at the
short-segment guard: the recognition capability is never invoked (the
outcome is `skippedShort`, reached before the recognizer is even created,
whatever the would-be recognition result `r` is) and the trigger state —
in particular `trigger_detected` — is left unchanged, even if the segment's
audio contains the trigger phrase. -/
theorem claim_C10_short_segment_skipped (s : TriggerState) (w : String)
    (a : AudioData) (r : Except String String)
    (h : isShortSegment a = true) :
    listen_callback s w a r = (.skippedShort, s) := by
  simp [listen_callback, h]

/-- Witness for C10 at a concrete short segment (1000 bytes at
16 kHz × 2 bytes, i.e. 31.25 ms) whose recognition result would have
contained the trigger phrase. -/
theorem claim_C10_short_segment_skipped_witness :
    listen_callback initTriggerState "computer" ⟨1000, 16000, 2⟩ (.ok "hey computer") =
      (.skippedShort, initTriggerState) :=
  claim_C10_short_segment_skipped initTriggerState "computer" ⟨1000, 16000, 2⟩
    (.ok "hey computer") (by decide)

/-- C4 counterexample: the claim says a recognition exception is caught
inside the per-segment handler and the segment is treated as "no trigger".
On the code, `listen_callback` wraps none of the recognition calls in a
try/except: at a concrete 0.5-second segment whose recognition raises,
the exception escapes the handler (`errorPropagated`), which is not the
"no trigger" outcome. -/
theorem claim_C4_counterexample :
    (listen_callback initTriggerState "computer" ⟨16000, 16000, 2⟩
        (.error "vosk failure")).1 = .errorPropagated "vosk failure" ∧
      SegmentOutcome.errorPropagated "vosk failure" ≠ SegmentOutcome.noTrigger := by
  exact ⟨rfl, by decide⟩

/-- C4 amended: a recognition exception on a segment that passes the
short-segment guard is NOT caught inside `listen_callback`; it propagates
out of the handler unchanged (to the listener layer, whose configured
`on_error` callback logs it), and the trigger state is left unchanged. -/
theorem claim_C4_error_propagates (s : TriggerState) (w : String)
    (a : AudioData) (e : String)
    (h : isShortSegment a = false) :
    listen_callback s w a (.error e) = (.errorPropagated e, s) := by
  simp [listen_callback, h]

/-- Witness for the amended C4 at a concrete 0.5-second segment. -/
theorem claim_C4_error_propagates_witness :
    listen_callback initTriggerState "computer" ⟨16000, 16000, 2⟩ (.error "vosk failure") =
      (.errorPropagated "vosk failure", initTriggerState) :=
  claim_C4_error_propagates initTriggerState "computer" ⟨16000, 16000, 2⟩
    "vosk failure" (by decide)

/-- C3: for a segment that passes the short-segment guard, with the
configured phrase stored case-folded (`Trigger.new` line 51) and the
recognized text case-folded (line 191): when both the case-folded
recognized text and the case-folded phrase are nonempty, a trigger fires
iff the case-folded phrase is a substring of the case-folded text; and if
either is empty, no trigger ever fires. -/
theorem claim_C3_substring_match (s : TriggerState) (rawPhrase rawText : String)
    (a : AudioData) (h : isShortSegment a = false) :
    ((pyIsEmpty (pyLower rawText) = false ∧ pyIsEmpty (pyLower rawPhrase) = false) →
      (((listen_callback s (configTriggerWord rawPhrase) a (.ok rawText)).1.fired = true) ↔
        strContains (pyLower rawPhrase) (pyLower rawText) = true)) ∧
    ((pyIsEmpty (pyLower rawText) = true ∨ pyIsEmpty (pyLower rawPhrase) = true) →
      ((listen_callback s (configTriggerWord rawPhrase) a (.ok rawText)).1.fired = false)) := by
  constructor
  · rintro ⟨ht, hp⟩
    by_cases hc : strContains (pyLower rawPhrase) (pyLower rawText) = true <;>
      simp [listen_callback, h, configTriggerWord, ht, hp, hc, SegmentOutcome.fired]
  · rintro (ht | hp)
    · simp [listen_callback, h, configTriggerWord, ht, SegmentOutcome.fired]
    · rcases ht : pyIsEmpty (pyLower rawText) with _ | _
      · simp [listen_callback, h, configTriggerWord, ht, hp, SegmentOutcome.fired]
      · simp [listen_callback, h, configTriggerWord, ht, SegmentOutcome.fired]

/-- Witness for C3: phrase "computer" at a 1-second segment fires on
recognized text "okay computer now" (substring holds) and, by the same
theorem at text "comp uter", does not fire (substring fails). -/
theorem claim_C3_substring_match_witness :
    (((listen_callback initTriggerState (configTriggerWord "computer") ⟨32000, 16000, 2⟩
        (.ok "okay computer now")).1.fired = true) ↔
      (strContains (pyLower "computer") (pyLower "okay computer now") = true)) ∧
    (((listen_callback initTriggerState (configTriggerWord "computer") ⟨32000, 16000, 2⟩
        (.ok "comp uter")).1.fired = true) ↔
      (strContains (pyLower "computer") (pyLower "comp uter") = true)) :=
  ⟨(claim_C3_substring_match initTriggerState "computer" "okay computer now"
      ⟨32000, 16000, 2⟩ (by decide)).1 (by decide),
   (claim_C3_substring_match initTriggerState "computer" "comp uter"
      ⟨32000, 16000, 2⟩ (by decide)).1 (by decide)⟩

/-- C5: when the trigger fires, `on_trigger_detected` records as
`trigger_timestamp_ns` exactly `last_chunk_timestamp_ns` — the high-water
mark written by the live forwarding loop (the model takes no system clock
and no segmenter clock as input); and within a forwarding-loop iteration in
which a detection arrives, the recorded trigger timestamp is the high-water
mark as most recently updated by that loop. -/
theorem claim_C5_trigger_timestamp_is_hwm :
    (∀ (s : TriggerState) (d : Nat),
      (on_trigger_detected s d).triggerTimestampNs = s.lastChunkTimestampNs) ∧
    (∀ (fetch : HistoricalQuery → List AudioChunk) (s : TriggerState)
        (first : Bool) (c : AudioChunk) (d : Nat),
      (genStep fetch s first c (some d)).state.triggerTimestampNs =
        updateHwm s.lastChunkTimestampNs c) := by
  refine ⟨fun s d => rfl, fun fetch s first c d => ?_⟩
  simp [genStep, on_trigger_detected]

/-- C8: the forwarding loop overwrites the high-water mark with a chunk's
end timestamp exactly when that timestamp is strictly positive, and leaves
it unchanged on a zero/unset timestamp; and every loop iteration's
resulting state carries precisely this update. -/
theorem claim_C8_hwm_update_iff_positive :
    (∀ (hwm : Nat) (c : AudioChunk),
      (0 < c.endTimestampNs → updateHwm hwm c = c.endTimestampNs) ∧
      (c.endTimestampNs = 0 → updateHwm hwm c = hwm)) ∧
    (∀ (fetch : HistoricalQuery → List AudioChunk) (s : TriggerState)
        (first : Bool) (c : AudioChunk) (tr : Option Nat),
      (genStep fetch s first c tr).state.lastChunkTimestampNs =
        updateHwm s.lastChunkTimestampNs c) := by
  constructor
  · intro hwm c
    constructor
    · intro hpos; simp [updateHwm, hpos]
    · intro hz; simp [updateHwm, hz]
  · intro fetch s first c tr
    unfold genStep
    cases tr <;> dsimp only <;> split <;> simp [on_trigger_detected]

/-- Witness for C8: with the high-water mark at 7, a chunk with end
timestamp 100 overwrites it to 100, and a chunk with end timestamp 0
leaves it at 7. -/
theorem claim_C8_hwm_update_iff_positive_witness :
    updateHwm 7 chunkA = 100 ∧
      updateHwm 7 { payload := [], startTimestampNs := 0, endTimestampNs := 0 } = 7 :=
  ⟨(claim_C8_hwm_update_iff_positive.1 7 chunkA).1 (by decide),
   (claim_C8_hwm_update_iff_positive.1 7
      { payload := [], startTimestampNs := 0, endTimestampNs := 0 }).2 rfl⟩

/-- C9 (code bug): `get_properties` as written consists of a single debug
log line and no return statement, so it always returns `None`: it never
produces the default properties {sample_rate=16000, channel_count=1} and
never delegates to the upstream source, contradicting its own
`-> AudioIn.Properties` return annotation. -/
theorem claim_C9_get_properties_returns_none :
    get_properties = none ∧ get_properties.isSome = false :=
  ⟨rfl, rfl⟩

/-- C1 counterexample: the claim says every live chunk received from the
upstream microphone is forwarded downstream. On a concrete session with two
live chunks and no trigger, the output stream contains only the first chunk;
the second live chunk is never yielded. -/
theorem claim_C1_counterexample :
    (audioGeneratorRun emptyFetch initTriggerState true [(chunkA, none), (chunkB, none)]).1 =
      [chunkA] ∧
    chunkB ∉ (audioGeneratorRun emptyFetch initTriggerState true
      [(chunkA, none), (chunkB, none)]).1 := by
  decide

/-- C1 amended: in EVERY session — arbitrary initial state (the trigger
flag may already be set), arbitrary trigger arrivals, arbitrary upstream
bursts — the output stream is exactly the first live chunk (when the
first-chunk flag is set and a chunk exists) followed by the fetched replay
bursts: every later live chunk is consumed solely to update the high-water
mark and to poll the trigger flag and is never yielded, and apart from the
first chunk the only chunks emitted are spliced replay bursts. -/
theorem claim_C1_only_first_live_forwarded
    (fetch : HistoricalQuery → List AudioChunk) (s : TriggerState)
    (first : Bool) (events : List (AudioChunk × Option Nat)) :
    (audioGeneratorRun fetch s first events).1 =
      (if first then (events.map Prod.fst).take 1 else []) ++
        (((audioGeneratorRun fetch s first events).2.1).map fetch).flatten :=
  audioGeneratorRun_outputs_structure fetch events s first

/-- C2: a loop iteration in which a trigger detection with segment duration
`d` arrives issues exactly one historical query against the upstream
source, whose `previous_timestamp_ns` is `T - d` for `T` the recorded
trigger timestamp (the current high-water mark) and whose
`duration_seconds` is `d / 1_000_000_000`, so the requested window is
exactly `[T - d, T)`: the start plus the duration (in ns) equals `T`.
In particular `T = 10_000_000_000`, `d = 2_000_000_000` yields the query
(start `8_000_000_000`, duration `2` s), i.e. the range
`[8_000_000_000, 10_000_000_000)`. -/
theorem claim_C2_historical_query_range :
    (∀ (fetch : HistoricalQuery → List AudioChunk) (s : TriggerState)
        (first : Bool) (c : AudioChunk) (d : Nat),
      (genStep fetch s first c (some d)).queries =
        [{ previousTimestampNs := (updateHwm s.lastChunkTimestampNs c : Int) - (d : Int),
           durationSeconds := (d : ℚ) / 1000000000 }]) ∧
    (∀ s : TriggerState,
      (historicalQueryOf s).previousTimestampNs =
        (s.triggerTimestampNs : Int) - (s.triggerSegmentDurationNs : Int) ∧
      ((historicalQueryOf s).previousTimestampNs : ℚ) +
          (historicalQueryOf s).durationSeconds * 1000000000 =
        (s.triggerTimestampNs : ℚ)) ∧
    (historicalQueryOf
        { lastChunkTimestampNs := 10000000000
          triggerDetected := true
          triggerTimestampNs := 10000000000
          triggerSegmentDurationNs := 2000000000 } =
      { previousTimestampNs := 8000000000, durationSeconds := 2 }) := by
  refine ⟨?_, ?_, ?_⟩
  · intro fetch s first c d
    simp [genStep, on_trigger_detected, historicalQueryOf]
  · intro s
    refine ⟨rfl, ?_⟩
    simp only [historicalQueryOf]
    push_cast
    field_simp
  · simp only [historicalQueryOf]
    norm_num

/-- C6: the very first live chunk is always the first item of the output
stream, before any replay logic runs — even when the trigger flag is
already set when the stream starts (the state `s` is arbitrary here, so in
particular it may have `triggerDetected = true`), and whatever trigger
event arrives during the first iteration. -/
theorem claim_C6_first_live_chunk_emitted_first
    (fetch : HistoricalQuery → List AudioChunk) (s : TriggerState)
    (c : AudioChunk) (tr : Option Nat)
    (events : List (AudioChunk × Option Nat)) :
    ((audioGeneratorRun fetch s true ((c, tr) :: events)).1).head? = some c := by
  have hstep := genStep_outputs_structure fetch s true c tr
  simp only [audioGeneratorRun]
  rw [hstep]
  simp

/-- C7: (i) the whole output stream is the first live chunk followed by the
fetched replay bursts, each burst contiguous (its chunks in stream order,
nothing yielded between them) and the bursts in the order their queries
were issued; (ii) an iteration that issues a replay query finishes with the
trigger-detected flag cleared — the clear happens only at the end of the
step, after the entire burst has been yielded; (iii) each iteration issues
at most one replay query, so at most one burst is in flight at a time. -/
theorem claim_C7_replay_burst_atomic :
    (∀ (fetch : HistoricalQuery → List AudioChunk) (s : TriggerState)
        (events : List (AudioChunk × Option Nat)),
      (audioGeneratorRun fetch s true events).1 =
        (events.map Prod.fst).take 1 ++
          (((audioGeneratorRun fetch s true events).2.1).map fetch).flatten) ∧
    (∀ (fetch : HistoricalQuery → List AudioChunk) (s : TriggerState)
        (first : Bool) (c : AudioChunk) (tr : Option Nat),
      (genStep fetch s first c tr).queries ≠ [] →
        (genStep fetch s first c tr).state.triggerDetected = false) ∧
    (∀ (fetch : HistoricalQuery → List AudioChunk) (s : TriggerState)
        (first : Bool) (c : AudioChunk) (tr : Option Nat),
      (genStep fetch s first c tr).queries.length ≤ 1) := by
  refine ⟨?_, ?_, ?_⟩
  · intro fetch s events
    simpa using audioGeneratorRun_outputs_structure fetch events s true
  · intro fetch s first c tr _
    unfold genStep
    cases tr <;> dsimp only <;> split <;> simp_all
  · intro fetch s first c tr
    unfold genStep
    cases tr <;> dsimp only <;> split <;> simp

/-- Witness for C7: a concrete iteration in which a trigger detection
arrives issues a (nonempty) query list and ends with the flag cleared. -/
theorem claim_C7_replay_burst_atomic_witness :
    (genStep emptyFetch initTriggerState true chunkA (some 5)).state.triggerDetected = false :=
  claim_C7_replay_burst_atomic.2.1 emptyFetch initTriggerState true chunkA (some 5)
    (by simp [genStep, on_trigger_detected])

end FilterMic
